import Mathlib

/-!
Verification of the loomy façade crate (src/lib.rs), production backend.

The crate under the default configuration (feature `enable` off) defines a
module `imp` that re-exports the standard library's primitives and wraps
`std::cell::UnsafeCell<T>` in a closure-based adapter:

  pub struct UnsafeCell<T>(std::cell::UnsafeCell<T>);
  impl<T> From<T> for UnsafeCell<T> { fn from(t) { Self(std::cell::UnsafeCell::new(t)) } }
  impl<T> UnsafeCell<T> {
    pub fn new(data: T) -> UnsafeCell<T> { UnsafeCell(std::cell::UnsafeCell::new(data)) }
    pub fn with<R>(&self, f: impl FnOnce(*const T) -> R) -> R { f(self.0.get()) }
    pub fn with_mut<R>(&self, f: impl FnOnce(*mut T) -> R) -> R { f(self.0.get()) }
  }
  pub fn model<F: FnOnce()>(f: F) { f() }

Shallow embedding conventions used below:
  - a raw pointer into the cell is modelled by the value it points at (for a
    `*const T` view the closure is a pure function of that value); a write
    through a `*mut T` view is modelled by state passing: the closure returns
    the new contents together with its result, and `with_mut` returns the
    updated cell alongside the closure's result;
  - closure side effects (an incremented counter, a produced event trace) are
    modelled by instantiating the result type `R` of the polymorphic
    operations, or, for `model`, by treating the body as a transformer of an
    explicit state type.
-/

/-- Embedding of `std::cell::UnsafeCell<T>`: owns exactly one value of type
`T`; `get` hands out raw access to that value. -/
structure StdUnsafeCell (T : Type) where
  value : T

/-- Embedding of `std::cell::UnsafeCell::new`. -/
def StdUnsafeCell.new {T : Type} (t : T) : StdUnsafeCell T := ⟨t⟩

/-- Embedding of `std::cell::UnsafeCell::get`: the value the returned raw
pointer points at. -/
def StdUnsafeCell.get {T : Type} (c : StdUnsafeCell T) : T := c.value

/-- Embedding of loomy's production-backend adapter
`pub struct UnsafeCell<T>(std::cell::UnsafeCell<T>)` (src/lib.rs line 110). -/
structure UnsafeCell (T : Type) where
  inner : StdUnsafeCell T

/-- Embedding of `UnsafeCell::new` (src/lib.rs lines 121-123):
`UnsafeCell(std::cell::UnsafeCell::new(data))`. -/
def UnsafeCell.new {T : Type} (data : T) : UnsafeCell T :=
  ⟨StdUnsafeCell.new data⟩

/-- Embedding of `impl From<T> for UnsafeCell<T>` (src/lib.rs lines 112-117):
`Self(std::cell::UnsafeCell::new(t))`.  Named `from_` because `from` is a
reserved word in Lean. -/
def UnsafeCell.from_ {T : Type} (t : T) : UnsafeCell T :=
  ⟨StdUnsafeCell.new t⟩

/-- Embedding of `UnsafeCell::with` (src/lib.rs lines 125-128):
`f(self.0.get())`, the closure receiving a read-only raw view of the
contents.  Named `with'` because `with` is a reserved word in Lean. -/
def UnsafeCell.with' {T R : Type} (c : UnsafeCell T) (f : T → R) : R :=
  f c.inner.get

/-- Embedding of `UnsafeCell::with_mut` (src/lib.rs lines 130-133):
`f(self.0.get())` with a mutable raw view.  The closure is modelled in
state-passing style: it maps the current contents to the (possibly updated)
contents paired with its result, and `with_mut` returns the updated cell
paired with that result. -/
def UnsafeCell.with_mut {T R : Type} (c : UnsafeCell T) (f : T → T × R) :
    UnsafeCell T × R :=
  (⟨StdUnsafeCell.new (f c.inner.get).1⟩, (f c.inner.get).2)

/-- Embedding of `pub fn model<F: FnOnce()>(f: F) { f() }` (src/lib.rs lines
137-140), the production backend's entry point.  The body's side effects are
modelled as a transformer of an explicit state `σ`; `model` applies the body
to the incoming state and returns the resulting state. -/
def model {σ : Type} (f : σ → σ) (s : σ) : σ :=
  f s

/-- Events a closure may emit, used to observe whether the adapter adds any
synchronization or scheduling action of its own: `sync` stands for any
blocking synchronization, `yield` for yielding the scheduler, `other` for any
non-blocking action. -/
inductive Event : Type
  | sync : Event
  | yield : Event
  | other : Event
deriving DecidableEq, Repr

/-- An event is a blocking one exactly when it synchronizes or yields. -/
def Event.isBlocking : Event → Bool
  | Event.sync => true
  | Event.yield => true
  | Event.other => false

/-- A trace is block-free when it contains no blocking event. -/
def blockFree (tr : List Event) : Bool :=
  tr.all (fun e => !e.isBlocking)

/-- Embedding of the compile-time backend choice: the two variants the
feature selector can pick. -/
inductive Backend : Type
  | Production : Backend
  | Exploration : Backend
deriving DecidableEq, Repr

/-- Embedding of the `cfg(feature = "enable")` selection (src/lib.rs lines
97-104): the single boolean feature flag determines which `imp` module is
compiled, Exploration when the flag is set and Production otherwise. -/
def selectBackend (enable : Bool) : Backend :=
  if enable then Backend.Exploration else Backend.Production

/-- Modelled from the spec: the exploration backend (the external `loom`
crate, re-exported unchanged when the feature is set) supplies a native
closure-based cell whose `new`, `with` and `with_mut` have the shape of
section 4.2's contract.  Its code is not part of this repository; the
structure below follows the spec's words for comparison with the adapter. -/
structure LoomUnsafeCell (T : Type) where
  value : T

/-- Modelled from the spec: the exploration cell's constructor wraps one
value. -/
def LoomUnsafeCell.new {T : Type} (data : T) : LoomUnsafeCell T :=
  ⟨data⟩

/-- Modelled from the spec: the exploration cell's `with` invokes the closure
on a read-only view of the contents and returns its result. -/
def LoomUnsafeCell.with' {T R : Type} (c : LoomUnsafeCell T) (f : T → R) : R :=
  f c.value

/-- Modelled from the spec: the exploration cell's `with_mut` invokes the
closure on a mutable view; state-passing style as for the adapter. -/
def LoomUnsafeCell.with_mut {T R : Type} (c : LoomUnsafeCell T) (f : T → T × R) :
    LoomUnsafeCell T × R :=
  (⟨(f c.value).1⟩, (f c.value).2)

/-- Modelled from the spec: the exploration backend's model-run driver
re-executes the body a backend-chosen number `n` of times (section 4.4; the
search strategy itself is opaque, only the repetition count is visible to the
body's state). -/
def loomModel {σ : Type} (n : Nat) (f : σ → σ) (s : σ) : σ :=
  f^[n] s

/-- C1: under the Production backend `model f` invokes the body `f` exactly
once and then returns: for every state, the state after `model` is one
application of the body; in particular a body incrementing a counter leaves
the counter at exactly 1. -/
theorem model_invokes_body_exactly_once :
    (∀ (σ : Type) (f : σ → σ) (s : σ), model f s = f s)
      ∧ model (fun n : Nat => n + 1) 0 = 1 :=
  ⟨fun _ _ _ => rfl, rfl⟩

/-- C2: cell round-trip: for every value `v`, constructing the adapter cell
with `new v` and immediately reading it back through `with` yields exactly
`v`. -/
theorem cell_round_trip :
    ∀ (T : Type) (v : T), (UnsafeCell.new v).with' (fun p => p) = v :=
  fun _ _ => rfl

/-- C3: `with` and `with_mut` are thin pass-throughs: each invokes its
closure exactly once on the contained value and returns exactly the closure's
result, performing no other action.  The call count is made observable by a
closure that reports 1 per invocation alongside an arbitrary result. -/
theorem with_pass_through :
    ∀ (T R : Type) (c : UnsafeCell T) (f : T → R) (g : T → T × R),
      c.with' f = f c.inner.value
        ∧ c.with_mut g = (⟨⟨(g c.inner.value).1⟩⟩, (g c.inner.value).2)
        ∧ c.with' (fun t => (1, f t)) = (1, f c.inner.value)
        ∧ c.with_mut (fun t => ((g t).1, (1, (g t).2)))
            = (⟨⟨(g c.inner.value).1⟩⟩, (1, (g c.inner.value).2)) :=
  fun _ _ _ _ _ => ⟨rfl, rfl, rfl, rfl⟩

/-- Embedding of the derived `Default` for `std::cell::UnsafeCell<T>`, which
requires `T: Default` and contains `T::default()`; Rust's `Default` bound is
modelled by Lean's `Inhabited`. -/
def StdUnsafeCell.default (T : Type) [Inhabited T] : StdUnsafeCell T :=
  ⟨Inhabited.default⟩

/-- Embedding of the `derive(Default)` on the adapter (src/lib.rs lines
109-110): the field-wise default, i.e. a cell containing `T::default()`. -/
def UnsafeCell.default (T : Type) [Inhabited T] : UnsafeCell T :=
  ⟨StdUnsafeCell.default T⟩

/-- C4: exactly one backend is selected per build by the boolean feature
flag, and for code written against the façade the two backends differ only in
how often `model` runs the body: the cells' single-call semantics coincide,
and the production `model` equals the exploration driver restricted to one
execution, while the exploration driver is exactly `n`-fold re-execution. -/
theorem backend_transparency :
    (∀ b : Bool,
        (selectBackend b = Backend.Exploration ↔ b = true)
          ∧ (selectBackend b = Backend.Production ↔ b = false))
      ∧ (∀ (T R : Type) (v : T) (f : T → R),
          (LoomUnsafeCell.new v).with' f = (UnsafeCell.new v).with' f)
      ∧ (∀ (T R : Type) (v : T) (g : T → T × R),
          ((LoomUnsafeCell.new v).with_mut g).1.value
              = ((UnsafeCell.new v).with_mut g).1.inner.value
            ∧ ((LoomUnsafeCell.new v).with_mut g).2
                = ((UnsafeCell.new v).with_mut g).2)
      ∧ (∀ (σ : Type) (f : σ → σ) (s : σ), model f s = loomModel 1 f s)
      ∧ (∀ (σ : Type) (n : Nat) (f : σ → σ) (s : σ), loomModel n f s = f^[n] s) := by
  refine ⟨?_, ?_, ?_, ?_, ?_⟩
  · intro b; cases b <;> simp [selectBackend]
  · intro _ _ _ _; rfl
  · intro _ _ _ _; exact ⟨rfl, rfl⟩
  · intro σ f s; simp [model, loomModel]
  · intro _ _ _ _; rfl

/-- C5: `new` is defined for every type `T`, with no typeclass capability
(no default, no copy, no clone) required; it consumes exactly the one value
passed and stores it unchanged in the cell, and being a pure function it has
no side effect. -/
theorem new_takes_ownership :
    ∀ (T : Type) (v : T), (UnsafeCell.new v).inner.value = v :=
  fun _ _ => rfl

/-- C6: none of the adapter's operations has an error branch of its own: a
fallible closure's outcome is propagated unchanged, so whenever the closure
returns normally (`Except.ok`), `with` and `with_mut` return that same normal
outcome. -/
theorem ops_cannot_fail {T R E : Type} (c : UnsafeCell T)
    (f : T → Except E R) (g : T → T × Except E R) (r r2 : R)
    (hf : f c.inner.value = Except.ok r)
    (hg : (g c.inner.value).2 = Except.ok r2) :
    c.with' f = Except.ok r ∧ (c.with_mut g).2 = Except.ok r2 :=
  ⟨hf, hg⟩

/-- C6 witness: a concrete cell and concrete normally-returning closures. -/
theorem ops_cannot_fail_witness :
    (UnsafeCell.new 5).with' (fun t => (Except.ok t : Except Unit Nat))
        = Except.ok 5
      ∧ ((UnsafeCell.new 5).with_mut
          (fun t => (t + 1, (Except.ok t : Except Unit Nat)))).2 = Except.ok 5 :=
  ops_cannot_fail (UnsafeCell.new 5) _ _ 5 5 rfl rfl

/-- C7: under the production backend `with` and `with_mut` add no hidden
synchronization: the event trace of a call is exactly the closure's own
trace, so whenever the closure's trace is free of blocking events, so is the
adapter call's. -/
theorem adapter_adds_no_blocking {T R : Type} (c : UnsafeCell T)
    (f : T → List Event × R) (g : T → T × (List Event × R))
    (hf : blockFree (f c.inner.value).1 = true)
    (hg : blockFree ((g c.inner.value).2).1 = true) :
    blockFree (c.with' f).1 = true ∧ blockFree ((c.with_mut g).2).1 = true :=
  ⟨hf, hg⟩

/-- C7 witness: a concrete cell and concrete non-blocking closures. -/
theorem adapter_adds_no_blocking_witness :
    blockFree ((UnsafeCell.new 0).with' (fun t => ([Event.other], t))).1 = true
      ∧ blockFree (((UnsafeCell.new 0).with_mut
          (fun t => (t, ([Event.other], t)))).2).1 = true :=
  adapter_adds_no_blocking (UnsafeCell.new 0) _ _ (by decide) (by decide)

/-- C8: `with` and `with_mut` act on the same storage location: writing `w`
through `with_mut` and then reading through `with` (with no intervening
mutation) yields `w`. -/
theorem with_mut_then_with :
    ∀ (T : Type) (c : UnsafeCell T) (w : T),
      ((c.with_mut (fun _ => (w, ()))).1).with' (fun p => p) = w :=
  fun _ _ _ => rfl

/-- C9: the `From` conversion is equivalent to construction: a cell built by
`from_` and a cell built by `new` from the same value are indistinguishable
through `with`. -/
theorem from_matches_new :
    ∀ (T R : Type) (t : T) (f : T → R),
      (UnsafeCell.from_ t).with' f = (UnsafeCell.new t).with' f :=
  fun _ _ _ _ => rfl

/-- C10: the derived `Default` cell contains exactly the element type's
default value, as observed through `with`. -/
theorem default_contains_default :
    ∀ (T : Type) (_inst : Inhabited T),
      (UnsafeCell.default T).with' (fun p => p) = (Inhabited.default : T) :=
  fun _ _ => rfl
